import Mathlib

/-!
# Species record edit flow: shallow embedding

This file embeds the validated record-edit submission logic of the two
components `SpeciesCard` (src/app/species/species-card.tsx) and
`EditSpeciesDialog` (src/app/species/edit-species-card.tsx).

Both components define the same zod schema `speciesSchema` over the six
editable fields of a species record, and a submit handler `onSubmit` that
builds an update request for the `species` table, shows a toast on error,
and on success resets the form, flips a dialog flag and asks the router to
refresh.

Modelling conventions:
* JavaScript string-valued form slots are three-state (`undefined`, `null`,
  or a string); they are embedded as `JSStr`.  Number slots are `JSNum`.
* zod validation failure (a throw of `ZodError`, or a failed resolver) is
  embedded as `Option.none`; a successful parse returns the transformed data.
* The well-formedness test performed by `z.string().url()` (in zod v3 a
  `new URL(input)` inside try/catch, i.e. the WHATWG URL parser) is not
  reimplemented; it is passed in as an oracle `isURL : String → Bool`.
  Statements about the schema are proved for every oracle.
* The supabase update call `supabase.from("species").update([{...}]).eq(c,v)`
  is embedded as the object literal it constructs: an association list of
  column names to `Value`s, plus the filter column/value given to `.eq`.
* The side effects of one run of `onSubmit` (toasts pushed, `form.reset`
  calls, `setOpen`/`setEdit` calls, `router.refresh` calls, and whether the
  handler aborted with an exception) are collected in `SubmitEffects`.
-/

/-- JavaScript `String.prototype.trim()`: remove leading and trailing
whitespace.  (Defined over the character list so that it is kernel-reducible;
`String.trim` from core is extensionally the same but does not reduce.) -/
def jsTrim (s : String) : String :=
  ⟨((s.data.dropWhile Char.isWhitespace).reverse.dropWhile Char.isWhitespace).reverse⟩

/-- A JavaScript string-valued slot: `undefined`, `null`, or a string. -/
inductive JSStr where
  | undef
  | null
  | str (s : String)
deriving DecidableEq, Repr

/-- A JavaScript number-valued slot: `undefined`, `null`, or a number.
Numbers are embedded as rationals so that the `z.number().int()` check is
meaningful (JS numbers are not all integers). -/
inductive JSNum where
  | undef
  | null
  | num (q : Rat)
deriving DecidableEq, Repr

/-- The form data record.  Both source files declare
`type FormData = z.infer<typeof speciesSchema>` with exactly these six
fields; the same shape holds the raw form values before validation and the
transformed values after a successful parse. -/
structure SpeciesForm where
  common_name : JSStr
  description : JSStr
  kingdom : JSStr
  scientific_name : JSStr
  total_population : JSNum
  image : JSStr
deriving DecidableEq, Repr

/-- A species row as read from the database
(`Database["public"]["Tables"]["species"]["Row"]`): the fields the two
components actually read (`id` for the `.eq` filter in one variant,
`userId` for the other). -/
structure Species where
  id : Nat
  userId : String
deriving DecidableEq, Repr

/-- `kingdoms.options`: the six members of
`z.enum(["Animalia", "Plantae", "Fungi", "Protista", "Archaea", "Bacteria"])`. -/
def kingdomOptions : List String :=
  ["Animalia", "Plantae", "Fungi", "Protista", "Archaea", "Bacteria"]

/-- `kingdoms.parse(value)`: returns the value when it is one of the six
enum members, otherwise throws (embedded as `none`). -/
def kingdomsParse (s : String) : Option String :=
  if s ∈ kingdomOptions then some s else none

/-- The `common_name` rule of `speciesSchema`:
`z.string().nullable().transform((val) => (val?.trim() === "" ? null : val?.trim()))`.
`undefined` fails (`nullable` admits only `null` besides strings); `null`
passes and the transform maps it to `undefined` (`val?.trim()` on `null`);
a string trimming to empty becomes `null`, otherwise the trimmed string. -/
def parseCommonName : JSStr → Option JSStr
  | .undef => none
  | .null => some .undef
  | .str s => some (if jsTrim s = "" then .null else .str (jsTrim s))

/-- The `description` rule of `speciesSchema`: identical to `common_name`. -/
def parseDescription : JSStr → Option JSStr :=
  parseCommonName

/-- The `kingdom` rule of `speciesSchema`: the `kingdoms` enum; `undefined`
and `null` fail, a string must be one of the six options. -/
def parseKingdom : JSStr → Option String
  | .str s => kingdomsParse s
  | _ => none

/-- The `scientific_name` rule of `speciesSchema`:
`z.string().trim().min(1).transform((val) => val?.trim())`.
Only a string is accepted; it is trimmed, must then have length ≥ 1, and the
final transform trims once more. -/
def parseScientificName : JSStr → Option JSStr
  | .str s =>
      let t := jsTrim s
      if 1 ≤ t.length then some (.str (jsTrim t)) else none
  | _ => none

/-- The `total_population` rule of `speciesSchema`:
`z.number().int().positive().min(1).optional()`.
`undefined` passes (optional); `null` fails; a number must be an integer,
strictly positive, and ≥ 1. -/
def parseTotalPopulation : JSNum → Option JSNum
  | .undef => some .undef
  | .null => none
  | .num q => if q.den = 1 ∧ 0 < q ∧ 1 ≤ q then some (.num q) else none

/-- The `image` rule of `speciesSchema`:
`z.string().url().nullable().transform((val) => val?.trim())`.
`undefined` fails; `null` passes `nullable` and the transform maps it to
`undefined`; a string must pass the URL check (oracle `isURL`) and is then
trimmed. -/
def parseImage (isURL : String → Bool) : JSStr → Option JSStr
  | .undef => none
  | .null => some .undef
  | .str s => if isURL s then some (.str (jsTrim s)) else none

/-- `speciesSchema.parse` / the zod resolver on the whole object: each of
the six fields is validated independently (zod objects collect issues from
every field) and the parse succeeds exactly when all six do, returning the
transformed record. -/
def speciesSchemaParse (isURL : String → Bool) (f : SpeciesForm) :
    Option SpeciesForm :=
  match parseCommonName f.common_name, parseDescription f.description,
      parseKingdom f.kingdom, parseScientificName f.scientific_name,
      parseTotalPopulation f.total_population, parseImage isURL f.image with
  | some cn, some dn, some k, some sn, some tp, some im =>
      some ⟨cn, dn, .str k, sn, tp, im⟩
  | _, _, _, _, _, _ => none

example :
    speciesSchemaParse (fun s => s = "https://example.com/wolf.jpg")
      ⟨.str "", .str "", .str "Animalia", .str "  Canis lupus  ",
        .num 300000, .str "https://example.com/wolf.jpg"⟩ =
    some ⟨.null, .null, .str "Animalia", .str "Canis lupus",
        .num 300000, .str "https://example.com/wolf.jpg"⟩ := by decide

/-- A JavaScript value as it appears in the update object literal sent to
supabase: `undefined`, `null`, a string, or a number. -/
inductive Value where
  | undef
  | null
  | str (s : String)
  | num (q : Rat)
deriving DecidableEq, Repr

/-- Embed a string slot as the value placed in the object literal. -/
def JSStr.toValue : JSStr → Value
  | .undef => .undef
  | .null => .null
  | .str s => .str s

/-- Embed a number slot as the value placed in the object literal. -/
def JSNum.toValue : JSNum → Value
  | .undef => .undef
  | .null => .null
  | .num q => .num q

/-- JavaScript `x || null` on a string slot: `undefined`, `null` and the
empty string are falsy and become `null`; any other string is kept. -/
def jsOrNullStr : JSStr → Value
  | .undef => .null
  | .null => .null
  | .str s => if s = "" then .null else .str s

/-- JavaScript `x || null` on a number slot: `undefined`, `null` and `0`
are falsy and become `null`; any other number is kept. -/
def jsOrNullNum : JSNum → Value
  | .undef => .null
  | .null => .null
  | .num q => if q = 0 then .null else .num q

/-- One update request as handed to the supabase client:
the object literal (column name ↦ value, in source order) passed to
`.update([{...}])`, and the column/value pair passed to `.eq`. -/
structure UpdateRequest where
  payload : List (String × Value)
  filterColumn : String
  filterValue : Value
deriving DecidableEq, Repr

/-- The six user-editable columns of the species record. -/
def editableColumns : List String :=
  ["scientific_name", "common_name", "kingdom", "total_population",
   "image", "description"]

/-- A toast notification, as the `{title, description, variant}` triple
passed to `toast(...)`. -/
structure Toast where
  title : String
  description : String
  variant : String
deriving DecidableEq, Repr

/-- The outcome of the awaited supabase update call: `ok` when the
destructured `error` is null, `err msg` when it carries a message. -/
inductive DbResult where
  | ok
  | err (msg : String)
deriving DecidableEq, Repr

/-- All observable effects of one run of a submit handler: the update
request sent, toasts pushed, `form.reset` calls (with their argument),
`setOpen` and `setEdit` calls (in order), `router.refresh` calls, and
whether the handler aborted by throwing. -/
structure SubmitEffects where
  request : UpdateRequest
  toasts : List Toast
  formResetCalls : List SpeciesForm
  setOpenCalls : List Bool
  setEditCalls : List Bool
  refreshCalls : Nat
  threw : Bool
deriving DecidableEq, Repr

/-- The local UI state of a component: the two `useState<boolean>` flags
`open` and `edit`. -/
structure CardState where
  openFlag : Bool
  editFlag : Bool
deriving DecidableEq, Repr

/-- Replay the `setOpen`/`setEdit` calls of a handler run onto the flags
(the last call to a setter wins; no call leaves the flag unchanged). -/
def applyEffects (s : CardState) (e : SubmitEffects) : CardState :=
  { openFlag := e.setOpenCalls.getLast?.getD s.openFlag,
    editFlag := e.setEditCalls.getLast?.getD s.editFlag }

namespace SpeciesCard

/-- Initial UI state of `SpeciesCard`:
`useState<boolean>(false)` for `open` and for `edit`. -/
def initialState : CardState := ⟨false, false⟩

/-- Visibility of the details dialog: `<Dialog open={open} ...>`. -/
def detailsDialogVisible (s : CardState) : Bool := s.openFlag

/-- Visibility of the edit dialog: `<Dialog open={edit} ...>`. -/
def editDialogVisible (s : CardState) : Bool := s.editFlag

/-- The update request of `SpeciesCard.onSubmit`: the object literal lists
`author` and all six editable columns, each taken directly from `input`,
and the row filter is `.eq("userId", userId)` — the owner identifier. -/
def updateRequest (userId : String) (input : SpeciesForm) : UpdateRequest :=
  { payload :=
      [("author", .str userId),
       ("common_name", input.common_name.toValue),
       ("description", input.description.toValue),
       ("kingdom", input.kingdom.toValue),
       ("scientific_name", input.scientific_name.toValue),
       ("total_population", input.total_population.toValue),
       ("image", input.image.toValue)],
    filterColumn := "userId",
    filterValue := .str userId }

/-- One run of `SpeciesCard.onSubmit` (src/app/species/species-card.tsx,
lines 69–99), given the result of the awaited update call.
On error: `return toast({title: "Something went wrong.", description:
error.message, variant: "destructive"})` — nothing else happens.
On success: `form.reset(input); setOpen(false); router.refresh()`.
Note the success path calls `setOpen`, the setter of the details-dialog
flag, not `setEdit`. -/
def onSubmit (userId : String) (input : SpeciesForm) (res : DbResult) :
    SubmitEffects :=
  match res with
  | .err m =>
      { request := updateRequest userId input,
        toasts := [⟨"Something went wrong.", m, "destructive"⟩],
        formResetCalls := [], setOpenCalls := [], setEditCalls := [],
        refreshCalls := 0, threw := false }
  | .ok =>
      { request := updateRequest userId input,
        toasts := [],
        formResetCalls := [input], setOpenCalls := [false], setEditCalls := [],
        refreshCalls := 1, threw := false }

/-- `form.handleSubmit(onSubmit)` in `SpeciesCard`: the `useForm` call
passes no resolver (`useForm<FormData>({ mode: "onChange" })`), so
react-hook-form runs no schema validation and always invokes `onSubmit`
with the current form values.  The update request is therefore sent for
every submitted form state.  (Returns the request sent; `none` would mean
no request.) -/
def submittedRequest (userId : String) (raw : SpeciesForm) :
    Option UpdateRequest :=
  some (updateRequest userId raw)

end SpeciesCard

namespace EditSpeciesDialog

/-- Initial UI state of `EditSpeciesDialog`:
`useState<boolean>(false)` for `open` and for `edit`. -/
def initialState : CardState := ⟨false, false⟩

/-- Visibility of the (only) dialog of `EditSpeciesDialog`:
`<Dialog open={true} onOpenChange={setEdit}>` — the `open` prop is the
literal `true`, independent of both state flags. -/
def editDialogVisible (_s : CardState) : Bool := true

/-- The update request of `EditSpeciesDialog.onSubmit`: the object literal
lists the six editable columns, each as `input.field || null` (except
`kingdom`, taken directly), and the row filter is
`.eq("species", species.id)` — the record identifier. -/
def updateRequest (sp : Species) (input : SpeciesForm) : UpdateRequest :=
  { payload :=
      [("common_name", jsOrNullStr input.common_name),
       ("description", jsOrNullStr input.description),
       ("kingdom", input.kingdom.toValue),
       ("scientific_name", jsOrNullStr input.scientific_name),
       ("total_population", jsOrNullNum input.total_population),
       ("image", jsOrNullStr input.image)],
    filterColumn := "species",
    filterValue := .num sp.id }

/-- One run of `EditSpeciesDialog.onSubmit` (src/app/species/
edit-species-card.tsx, lines 82–128), given the result of the awaited
update call.
On error: the same toast as the other variant, then return.
On success: `form.reset(input)` is commented out; the next statement calls
`useEffect(...)`, an identifier that is never imported in this module, so
the handler throws a `ReferenceError` there and aborts before
`setOpen(false)` and `router.refresh()` are reached. -/
def onSubmit (sp : Species) (input : SpeciesForm) (res : DbResult) :
    SubmitEffects :=
  match res with
  | .err m =>
      { request := updateRequest sp input,
        toasts := [⟨"Something went wrong.", m, "destructive"⟩],
        formResetCalls := [], setOpenCalls := [], setEditCalls := [],
        refreshCalls := 0, threw := false }
  | .ok =>
      { request := updateRequest sp input,
        toasts := [],
        formResetCalls := [], setOpenCalls := [], setEditCalls := [],
        refreshCalls := 0, threw := true }

/-- `form.handleSubmit(onSubmit)` in `EditSpeciesDialog`: the `useForm`
call installs `resolver: zodResolver(speciesSchema)`, so `onSubmit` (and
hence the update request) is reached only when the schema parse succeeds,
and then receives the transformed data. -/
def submittedRequest (isURL : String → Bool) (sp : Species)
    (raw : SpeciesForm) : Option UpdateRequest :=
  (speciesSchemaParse isURL raw).map (updateRequest sp)

end EditSpeciesDialog

/-- Decomposition of a successful schema parse: each field of the output is
the result of the corresponding field rule. -/
theorem speciesSchemaParse_fields (isURL : String → Bool) (f p : SpeciesForm)
    (hp : speciesSchemaParse isURL f = some p) :
    parseCommonName f.common_name = some p.common_name ∧
    parseDescription f.description = some p.description ∧
    (∃ k, parseKingdom f.kingdom = some k ∧ p.kingdom = .str k) ∧
    parseScientificName f.scientific_name = some p.scientific_name ∧
    parseTotalPopulation f.total_population = some p.total_population ∧
    parseImage isURL f.image = some p.image := by
  unfold speciesSchemaParse at hp
  split at hp
  · rename_i cn dn k sn tp im hcn hdn hk hsn htp him
    injection hp with hp
    subst hp
    exact ⟨hcn, hdn, ⟨k, hk, rfl⟩, hsn, htp, him⟩
  · exact absurd hp (by simp)

/-- If the `image` rule fails on the form's image slot, the whole schema
parse fails. -/
theorem speciesSchemaParse_none_of_image (isURL : String → Bool)
    (f : SpeciesForm) (h : parseImage isURL f.image = none) :
    speciesSchemaParse isURL f = none := by
  unfold speciesSchemaParse
  split
  · rename_i cn dn k sn tp im hcn hdn hk hsn htp him
    rw [h] at him
    exact absurd him (by simp)
  · rfl

/-- If the `total_population` rule fails on the form's slot, the whole
schema parse fails. -/
theorem speciesSchemaParse_none_of_population (isURL : String → Bool)
    (f : SpeciesForm) (h : parseTotalPopulation f.total_population = none) :
    speciesSchemaParse isURL f = none := by
  unfold speciesSchemaParse
  split
  · rename_i cn dn k sn tp im hcn hdn hk hsn htp him
    rw [h] at htp
    exact absurd htp (by simp)
  · rfl

/-- C1 (code bug): on a successful update, `SpeciesCard.onSubmit` does
reset the form to the submitted data and signal exactly one refresh, but it
calls `setOpen(false)` — the setter of the details-dialog flag — and never
touches the `edit` flag, so from a state where the edit dialog is open it
stays open (its visibility is `open={edit}`); and in the
`EditSpeciesDialog` variant the success path throws at the unimported
`useEffect` before any reset, dialog change or refresh.  Evaluated here at
a concrete successful submit. -/
theorem c1_success_path_leaves_edit_dialog_open :
    (SpeciesCard.onSubmit "user-1"
        ⟨.null, .null, .str "Animalia", .str "Canis lupus", .num 300000,
          .str "https://example.com/wolf.jpg"⟩ .ok).formResetCalls =
      [⟨.null, .null, .str "Animalia", .str "Canis lupus", .num 300000,
          .str "https://example.com/wolf.jpg"⟩] ∧
    (SpeciesCard.onSubmit "user-1"
        ⟨.null, .null, .str "Animalia", .str "Canis lupus", .num 300000,
          .str "https://example.com/wolf.jpg"⟩ .ok).refreshCalls = 1 ∧
    (SpeciesCard.onSubmit "user-1"
        ⟨.null, .null, .str "Animalia", .str "Canis lupus", .num 300000,
          .str "https://example.com/wolf.jpg"⟩ .ok).setOpenCalls = [false] ∧
    (SpeciesCard.onSubmit "user-1"
        ⟨.null, .null, .str "Animalia", .str "Canis lupus", .num 300000,
          .str "https://example.com/wolf.jpg"⟩ .ok).setEditCalls = [] ∧
    SpeciesCard.editDialogVisible
      (applyEffects ⟨false, true⟩
        (SpeciesCard.onSubmit "user-1"
          ⟨.null, .null, .str "Animalia", .str "Canis lupus", .num 300000,
            .str "https://example.com/wolf.jpg"⟩ .ok)) = true ∧
    (EditSpeciesDialog.onSubmit ⟨7, "user-1"⟩
        ⟨.null, .null, .str "Animalia", .str "Canis lupus", .num 300000,
          .str "https://example.com/wolf.jpg"⟩ .ok).threw = true ∧
    (EditSpeciesDialog.onSubmit ⟨7, "user-1"⟩
        ⟨.null, .null, .str "Animalia", .str "Canis lupus", .num 300000,
          .str "https://example.com/wolf.jpg"⟩ .ok).refreshCalls = 0 ∧
    (EditSpeciesDialog.onSubmit ⟨7, "user-1"⟩
        ⟨.null, .null, .str "Animalia", .str "Canis lupus", .num 300000,
          .str "https://example.com/wolf.jpg"⟩ .ok).formResetCalls = [] := by
  decide

/-- C2: on a failed update, both variants push exactly one toast whose
description is the backend error message, perform no form reset, no
refresh, and change neither dialog flag — so the edit dialog remains open
(its visibility is unchanged in `SpeciesCard`, and constantly `true` in
`EditSpeciesDialog`). -/
theorem c2_error_path_toast_only (userId : String) (sp : Species)
    (input : SpeciesForm) (msg : String) (s : CardState) :
    (SpeciesCard.onSubmit userId input (.err msg)).toasts =
      [⟨"Something went wrong.", msg, "destructive"⟩] ∧
    (EditSpeciesDialog.onSubmit sp input (.err msg)).toasts =
      [⟨"Something went wrong.", msg, "destructive"⟩] ∧
    (SpeciesCard.onSubmit userId input (.err msg)).formResetCalls = [] ∧
    (EditSpeciesDialog.onSubmit sp input (.err msg)).formResetCalls = [] ∧
    (SpeciesCard.onSubmit userId input (.err msg)).refreshCalls = 0 ∧
    (EditSpeciesDialog.onSubmit sp input (.err msg)).refreshCalls = 0 ∧
    applyEffects s (SpeciesCard.onSubmit userId input (.err msg)) = s ∧
    applyEffects s (EditSpeciesDialog.onSubmit sp input (.err msg)) = s ∧
    SpeciesCard.editDialogVisible
        (applyEffects s (SpeciesCard.onSubmit userId input (.err msg))) =
      SpeciesCard.editDialogVisible s ∧
    EditSpeciesDialog.editDialogVisible
        (applyEffects s (EditSpeciesDialog.onSubmit sp input (.err msg))) =
      true := by
  refine ⟨rfl, rfl, rfl, rfl, rfl, rfl, ?_, ?_, ?_, rfl⟩ <;>
    simp [applyEffects, SpeciesCard.onSubmit, EditSpeciesDialog.onSubmit,
      SpeciesCard.editDialogVisible]

/-- C3 (code bug): `SpeciesCard`'s `useForm` call passes no resolver, so
the schema is never run before submission — contradicting the handler's
own comment that the input "has already been processed by zod".  For a
form whose `scientific_name` trims to empty, the schema rejects the form,
yet `SpeciesCard` still sends the update request carrying the raw values;
the resolver-gated `EditSpeciesDialog` variant sends none.  Evaluated at
the concrete failing input. -/
theorem c3_unvalidated_submit_sends_request :
    speciesSchemaParse (fun _ => true)
      ⟨.str "", .str "", .str "Animalia", .str "   ", .undef, .null⟩ = none ∧
    SpeciesCard.submittedRequest "user-1"
      ⟨.str "", .str "", .str "Animalia", .str "   ", .undef, .null⟩ =
      some (SpeciesCard.updateRequest "user-1"
        ⟨.str "", .str "", .str "Animalia", .str "   ", .undef, .null⟩) ∧
    (SpeciesCard.updateRequest "user-1"
        ⟨.str "", .str "", .str "Animalia", .str "   ", .undef, .null⟩
      ).payload.lookup "scientific_name" = some (.str "   ") ∧
    EditSpeciesDialog.submittedRequest (fun _ => true) ⟨7, "user-1"⟩
      ⟨.str "", .str "", .str "Animalia", .str "   ", .undef, .null⟩ =
      none := by
  decide

/-- C4: whenever the schema parse succeeds, each of the two fields is
handled independently: if the raw `common_name` is a string trimming to
empty, the transformed value is `null` — absent, not the empty string —
and the update object literal built by either variant carries `null` in
that column; and likewise for `description`, whether or not the other
field also trims to empty. -/
theorem c4_empty_common_name_description_stored_absent
    (isURL : String → Bool) (f p : SpeciesForm) (userId : String)
    (sp : Species) (hp : speciesSchemaParse isURL f = some p) :
    (∀ cs : String, f.common_name = .str cs → jsTrim cs = "" →
      p.common_name = .null ∧
      (SpeciesCard.updateRequest userId p).payload.lookup "common_name" =
        some .null ∧
      (EditSpeciesDialog.updateRequest sp p).payload.lookup "common_name" =
        some .null) ∧
    (∀ ds : String, f.description = .str ds → jsTrim ds = "" →
      p.description = .null ∧
      (SpeciesCard.updateRequest userId p).payload.lookup "description" =
        some .null ∧
      (EditSpeciesDialog.updateRequest sp p).payload.lookup "description" =
        some .null) := by
  obtain ⟨hcn, hdn, -, -, -, -⟩ := speciesSchemaParse_fields isURL f p hp
  constructor
  · intro cs hc hct
    rw [hc] at hcn
    simp [parseCommonName, hct] at hcn
    refine ⟨hcn.symm, ?_, ?_⟩ <;>
      simp [SpeciesCard.updateRequest, EditSpeciesDialog.updateRequest,
        List.lookup, JSStr.toValue, jsOrNullStr, ← hcn]
  · intro ds hd hdt
    rw [hd] at hdn
    simp [parseDescription, parseCommonName, hdt] at hdn
    refine ⟨hdn.symm, ?_, ?_⟩ <;>
      simp [SpeciesCard.updateRequest, EditSpeciesDialog.updateRequest,
        List.lookup, JSStr.toValue, jsOrNullStr, ← hdn]

/-- Witness for C4, exercising each half on an input where only that field
trims to empty: first a form whose `common_name = "  "` trims to empty
while `description = " x "` does not, then a form whose
`description = "  "` trims to empty while `common_name = "cat"` does
not. -/
theorem c4_empty_common_name_description_stored_absent_witness :
    speciesSchemaParse (fun _ => true)
      ⟨.str "  ", .str " x ", .str "Plantae", .str " Felis catus ",
        .num 42, .null⟩ =
      some ⟨.null, .str "x", .str "Plantae", .str "Felis catus", .num 42,
        .undef⟩ ∧
    (⟨.null, .str "x", .str "Plantae", .str "Felis catus", .num 42,
        .undef⟩ : SpeciesForm).common_name = .null ∧
    speciesSchemaParse (fun _ => true)
      ⟨.str "cat", .str "  ", .str "Fungi", .str "Felis", .undef,
        .null⟩ =
      some ⟨.str "cat", .null, .str "Fungi", .str "Felis", .undef,
        .undef⟩ ∧
    (⟨.str "cat", .null, .str "Fungi", .str "Felis", .undef,
        .undef⟩ : SpeciesForm).description = .null := by
  refine ⟨by decide, ?_, by decide, ?_⟩
  · exact ((c4_empty_common_name_description_stored_absent (fun _ => true)
      ⟨.str "  ", .str " x ", .str "Plantae", .str " Felis catus ",
        .num 42, .null⟩
      ⟨.null, .str "x", .str "Plantae", .str "Felis catus", .num 42,
        .undef⟩
      "user-1" ⟨7, "user-1"⟩ (by decide)).1 "  " rfl (by decide)).1
  · exact ((c4_empty_common_name_description_stored_absent (fun _ => true)
      ⟨.str "cat", .str "  ", .str "Fungi", .str "Felis", .undef, .null⟩
      ⟨.str "cat", .null, .str "Fungi", .str "Felis", .undef, .undef⟩
      "user-1" ⟨7, "user-1"⟩ (by decide)).2 "  " rfl (by decide)).1

/-- C5: for every input, `SpeciesCard`'s update object literal lists
`author` and all six editable columns and `EditSpeciesDialog`'s lists all
six editable columns — the column set is fixed, independent of the input,
so there is no partial/diff update — and the row filter is
`.eq("userId", userId)` (owner identifier) in `SpeciesCard` versus
`.eq("species", species.id)` (record identifier) in `EditSpeciesDialog`. -/
theorem c5_full_field_set_and_scoping (userId : String) (sp : Species)
    (input : SpeciesForm) :
    (SpeciesCard.updateRequest userId input).payload.map Prod.fst =
      ["author", "common_name", "description", "kingdom",
       "scientific_name", "total_population", "image"] ∧
    (EditSpeciesDialog.updateRequest sp input).payload.map Prod.fst =
      ["common_name", "description", "kingdom", "scientific_name",
       "total_population", "image"] ∧
    (editableColumns.all fun c =>
      ((SpeciesCard.updateRequest userId input).payload.map
        Prod.fst).contains c) = true ∧
    (editableColumns.all fun c =>
      ((EditSpeciesDialog.updateRequest sp input).payload.map
        Prod.fst).contains c) = true ∧
    (SpeciesCard.updateRequest userId input).filterColumn = "userId" ∧
    (SpeciesCard.updateRequest userId input).filterValue = .str userId ∧
    (EditSpeciesDialog.updateRequest sp input).filterColumn = "species" ∧
    (EditSpeciesDialog.updateRequest sp input).filterValue = .num sp.id := by
  exact ⟨rfl, rfl, rfl, rfl, rfl, rfl, rfl, rfl⟩

/-- C6: a present (non-empty) `image` string rejected by the URL check
makes the whole schema parse fail; and whenever the parse succeeds on a
present `image` string, the stored value is the trimmed string. -/
theorem c6_image_url_checked_then_trimmed (isURL : String → Bool)
    (f p : SpeciesForm) (s : String) :
    (f.image = .str s → s ≠ "" → isURL s = false →
      speciesSchemaParse isURL f = none) ∧
    (speciesSchemaParse isURL f = some p → f.image = .str s →
      p.image = .str (jsTrim s)) := by
  constructor
  · intro hf _ hurl
    refine speciesSchemaParse_none_of_image isURL f ?_
    rw [hf]
    simp [parseImage, hurl]
  · intro hp hf
    have him := (speciesSchemaParse_fields isURL f p hp).2.2.2.2.2
    rw [hf] at him
    simp only [parseImage] at him
    split at him
    · injection him with him
      exact him.symm
    · exact absurd him (by simp)

/-- Witness for C6: the rejection half at `image = "notaurl"` with an
oracle refusing it, and the trimming half at `image = " https://x "`
with an oracle accepting it. -/
theorem c6_image_url_checked_then_trimmed_witness :
    speciesSchemaParse (fun _ => false)
      ⟨.null, .null, .str "Fungi", .str "Canis lupus", .undef,
        .str "notaurl"⟩ = none ∧
    (⟨.null, .null, .str "Fungi", .str "Canis lupus", .undef,
        .str "https://x"⟩ : SpeciesForm).image = .str (jsTrim " https://x ") := by
  constructor
  · exact (c6_image_url_checked_then_trimmed (fun _ => false)
      ⟨.null, .null, .str "Fungi", .str "Canis lupus", .undef,
        .str "notaurl"⟩
      ⟨.undef, .undef, .undef, .undef, .undef, .undef⟩ "notaurl").1
      rfl (by decide) rfl
  · have h := (c6_image_url_checked_then_trimmed (fun _ => true)
      ⟨.null, .null, .str "Fungi", .str "Canis lupus", .undef,
        .str " https://x "⟩
      ⟨.undef, .undef, .str "Fungi", .str "Canis lupus", .undef,
        .str "https://x"⟩ " https://x ").2 (by decide) rfl
    exact h

/-- C7: a `total_population` number that is ≤ 0 or not an integer makes
the whole schema parse fail, while an absent (`undefined`)
`total_population` passes its field rule. -/
theorem c7_total_population_positive_integer (isURL : String → Bool)
    (f : SpeciesForm) (q : Rat) (hq : f.total_population = .num q)
    (hbad : q ≤ 0 ∨ q.den ≠ 1) :
    speciesSchemaParse isURL f = none ∧
    parseTotalPopulation .undef = some .undef := by
  refine ⟨speciesSchemaParse_none_of_population isURL f ?_, rfl⟩
  rw [hq]
  simp only [parseTotalPopulation, ite_eq_right_iff]
  rintro ⟨hden, hpos, -⟩
  rcases hbad with h | h
  · exact absurd hpos (not_lt.mpr h)
  · exact absurd hden h

/-- Witness for C7 at the concrete non-positive input `-3` (and, for the
non-integer disjunct, the statement is also instantiable at `5/2`). -/
theorem c7_total_population_positive_integer_witness :
    speciesSchemaParse (fun _ => true)
      ⟨.null, .null, .str "Animalia", .str "Canis lupus",
        .num (mkRat (-3) 1), .null⟩ = none ∧
    speciesSchemaParse (fun _ => true)
      ⟨.null, .null, .str "Animalia", .str "Canis lupus",
        .num (mkRat 5 2), .null⟩ = none := by
  constructor
  · exact (c7_total_population_positive_integer (fun _ => true)
      ⟨.null, .null, .str "Animalia", .str "Canis lupus",
        .num (mkRat (-3) 1), .null⟩ (mkRat (-3) 1) rfl
      (Or.inl (by decide))).1
  · exact (c7_total_population_positive_integer (fun _ => true)
      ⟨.null, .null, .str "Animalia", .str "Canis lupus",
        .num (mkRat 5 2), .null⟩ (mkRat 5 2) rfl
      (Or.inr (by decide))).1

/-- C8 (code bug): both flags do start closed, and in `SpeciesCard` each
dialog's visibility equals its own flag (with states where both dialogs
are visible at once, so no mutual exclusion); but in `EditSpeciesDialog`
the dialog is rendered with the literal `open={true}`, so its visibility
is `true` even in the initial state where the `edit` flag is `false` — its
visibility is not governed by its flag. -/
theorem c8_dialog_flags_and_hardcoded_open :
    SpeciesCard.initialState = ⟨false, false⟩ ∧
    EditSpeciesDialog.initialState = ⟨false, false⟩ ∧
    (∀ s : CardState, SpeciesCard.detailsDialogVisible s = s.openFlag) ∧
    (∀ s : CardState, SpeciesCard.editDialogVisible s = s.editFlag) ∧
    SpeciesCard.detailsDialogVisible ⟨true, true⟩ = true ∧
    SpeciesCard.editDialogVisible ⟨true, true⟩ = true ∧
    EditSpeciesDialog.initialState.editFlag = false ∧
    EditSpeciesDialog.editDialogVisible EditSpeciesDialog.initialState =
      true := by
  exact ⟨rfl, rfl, fun _ => rfl, fun _ => rfl, rfl, rfl, rfl, rfl⟩

/-- C9: when the URL check rejects the empty string (as `new URL("")`
throws), a form whose `image` slot holds `""` fails the schema parse, so
the resolver-gated variant sends no update request; only `null` passes
the `image` rule as absent — `undefined` is rejected too. -/
theorem c9_cleared_image_field_blocks_submit (isURL : String → Bool)
    (f : SpeciesForm) (sp : Species)
    (hE : isURL "" = false) (hf : f.image = .str "") :
    speciesSchemaParse isURL f = none ∧
    EditSpeciesDialog.submittedRequest isURL sp f = none ∧
    parseImage isURL .null = some .undef ∧
    parseImage isURL .undef = none := by
  have h : speciesSchemaParse isURL f = none := by
    refine speciesSchemaParse_none_of_image isURL f ?_
    rw [hf]
    simp [parseImage, hE]
  exact ⟨h, by simp [EditSpeciesDialog.submittedRequest, h], rfl, rfl⟩

/-- Witness for C9 at a concrete oracle (accepting every non-empty string)
and a form with `image = ""`. -/
theorem c9_cleared_image_field_blocks_submit_witness :
    speciesSchemaParse (fun s => s != "")
      ⟨.null, .null, .str "Animalia", .str "Canis lupus", .undef,
        .str ""⟩ = none ∧
    EditSpeciesDialog.submittedRequest (fun s => s != "") ⟨7, "user-1"⟩
      ⟨.null, .null, .str "Animalia", .str "Canis lupus", .undef,
        .str ""⟩ = none := by
  have h := c9_cleared_image_field_blocks_submit (fun s => s != "")
    ⟨.null, .null, .str "Animalia", .str "Canis lupus", .undef, .str ""⟩
    ⟨7, "user-1"⟩ (by decide) rfl
  exact ⟨h.1, h.2.1⟩

/-- C10: `kingdoms.parse` throws (here: `none`) on every string outside
the six-member enumeration, and succeeds on every member of
`kingdoms.options` — the values the rendered select items carry — so the
throwing branch is unreachable through the select. -/
theorem c10_kingdoms_parse_totality_on_options (s t : String)
    (hs : s ∉ kingdomOptions) (ht : t ∈ kingdomOptions) :
    kingdomsParse s = none ∧ kingdomsParse t = some t := by
  constructor
  · simp [kingdomsParse, hs]
  · simp [kingdomsParse, ht]

/-- Witness for C10: `"Virus"` is outside the enumeration and rejected;
`"Fungi"` is an option and parses to itself. -/
theorem c10_kingdoms_parse_totality_on_options_witness :
    kingdomsParse "Virus" = none ∧ kingdomsParse "Fungi" = some "Fungi" :=
  c10_kingdoms_parse_totality_on_options "Virus" "Fungi" (by decide)
    (by decide)
